import Mathlib

/-!
Verification development for the `ai_teaching_assistant` repository
(single source file `app.py`).

The embedding models the three public operations
`get_google_drive_credentials`, `upload_to_google_drive` and
`process_audio_with_gemini` as pure functions over an explicit
environment `Env` that supplies the outcome of every external effect
(token file on disk, client-secret configuration, OAuth consent flow,
token refresh, Drive upload, Gemini staging and generation).
Python exceptions are modelled with `Except`; each public operation is
the body wrapped by its top-level `try/except` handler that converts
any raised error into `none`.  Every run also produces a trace of
observable events (refresh attempted, consent flow run, token file
written, Drive upload performed, generation requests issued).
-/

namespace AITA

/-- Delegated-authorization token bundle, mirroring
`google.oauth2.credentials.Credentials`: access token (optional string),
refresh token (optional string), expiry flag (abstracting the
expiry-timestamp comparison against the current time), granted scopes. -/
structure Credential where
  token : Option String
  refreshToken : Option String
  expired : Bool
  scopes : List String
deriving DecidableEq, Repr

/-- Mirrors the google-auth `valid` property:
`self.token is not None and not self.expired`. -/
def Credential.valid (c : Credential) : Bool :=
  c.token.isSome && !c.expired

/-- Python truthiness of an optional string: `None` and the empty string
are falsy, every other string is truthy. -/
def pyTruthy : Option String → Bool
  | none => false
  | some s => !(s == "")

/-- The Drive scope list configured at module level in `app.py`. -/
def SCOPES : List String := ["https://www.googleapis.com/auth/drive.file"]

/-- What a successful `InstalledAppFlow.run_local_server` hands back:
a freshly issued access token plus an optional refresh token. -/
structure FreshGrant where
  token : String
  refreshToken : Option String
deriving DecidableEq, Repr

/-- The distinct raise sites of the modelled code. -/
inductive Err
  | parseError
  | configError
  | flowError
  | refreshError
  | saveError
  | uploadError
  | stageError
  | genError
deriving DecidableEq, Repr

/-- Observable events of a run. -/
inductive Ev
  | refreshAttempt
  | flowRun
  | saveWrite
  | driveUpload
deriving DecidableEq, Repr

/-- Environment: the state of the outside world, fixing the outcome of
every external call the code makes.  `none` in an outcome field means
the corresponding call raises. -/
structure Env where
  tokenFileExists : Bool
  tokenFileContent : Option Credential
  configOk : Bool
  flowOutcome : Option FreshGrant
  refreshOutcome : Option String
  saveOk : Bool
  driveUploadOutcome : Option String
  geminiUploadOutcome : Option String
  generateOutcome : Option String
deriving Repr

/-- Lines 50-52 of `app.py`: if `token.json` exists, parse it with
`Credentials.from_authorized_user_file` (raises on unparsable content),
else leave `creds = None`. -/
def loadStep (env : Env) : Except Err (Option Credential) :=
  if env.tokenFileExists then
    match env.tokenFileContent with
    | none => .error .parseError
    | some c => .ok (some c)
  else .ok none

/-- Lines 68-70 / 73-75 of `app.py`:
`InstalledAppFlow.from_client_secrets_file` (raises when the
client-secret configuration is missing or invalid, before any user
interaction) followed by `flow.run_local_server(port=0)` (blocking
interactive consent; raises when declined or unreachable; on success
returns a freshly issued, non-expired credential for `SCOPES`). -/
def runFlow (env : Env) : Except Err Credential × List Ev :=
  if env.configOk then
    match env.flowOutcome with
    | none => (.error .flowError, [.flowRun])
    | some g => (.ok ⟨some g.token, g.refreshToken, false, SCOPES⟩, [.flowRun])
  else (.error .configError, [])

/-- Lines 63-64 of `app.py`: `creds.refresh(request)` — raises on any
refresh failure; on success mutates the credential in place with a new
access token and a fresh (non-expired) expiry, keeping the refresh
token. -/
def refreshStep (c : Credential) (env : Env) : Except Err Credential :=
  match env.refreshOutcome with
  | none => .error .refreshError
  | some t => .ok { c with token := some t, expired := false }

/-- Lines 78-79 of `app.py`: `open(token_path, 'w')` and write
`creds.to_json()` — raises when the file is unwritable. -/
def saveStep (env : Env) : Except Err Unit :=
  if env.saveOk then .ok () else .error .saveError

/-- Lines 55-80 of `app.py`: the body of
`if not creds or not creds.valid:` — refresh expired credentials that
carry a truthy refresh token, falling back to the full OAuth flow when
the refresh raises; otherwise run the full OAuth flow; then save the
resulting credentials to `token.json`. -/
def authStep (creds0 : Option Credential) (env : Env) :
    Except Err Credential × List Ev :=
  match creds0 with
  | some c =>
    if c.expired && pyTruthy c.refreshToken then
      match refreshStep c env with
      | .ok c2 => (.ok c2, [Ev.refreshAttempt])
      | .error _ => ((runFlow env).1, Ev.refreshAttempt :: (runFlow env).2)
    else runFlow env
  | none => runFlow env

/-- Lines 55-80 of `app.py`, continued: after the refresh-or-consent
step succeeds, write the credentials to `token.json` (line 78). -/
def authPath (creds0 : Option Credential) (env : Env) :
    Except Err Credential × List Ev :=
  match authStep creds0 env with
  | (.error e, tr) => (.error e, tr)
  | (.ok c, tr) =>
    match saveStep env with
    | .error e => (.error e, tr)
    | .ok _ => (.ok c, tr ++ [Ev.saveWrite])

/-- Lines 48-82 of `app.py`: the `try` body of
`get_google_drive_credentials` — load `token.json` if present, skip all
work when the loaded credentials are valid, otherwise take the
refresh-or-consent path and save. -/
def getCredsBody (env : Env) : Except Err Credential × List Ev :=
  match loadStep env with
  | .error e => (.error e, [])
  | .ok none => authPath none env
  | .ok (some c) => if c.valid then (.ok c, []) else authPath (some c) env

/-- Lines 42-86 of `app.py`: `get_google_drive_credentials` — the body
wrapped by the top-level `except Exception: return None` handler. -/
def get_google_drive_credentials (env : Env) : Option Credential × List Ev :=
  match getCredsBody env with
  | (.ok c, tr) => (some c, tr)
  | (.error _, tr) => (none, tr)

/-- Metadata the upload builds: `{'name': basename, 'parents': [folder]?}`. -/
structure FileMeta where
  name : String
  parents : List String
deriving DecidableEq, Repr

/-- Mirrors `os.path.basename` for slash-separated paths. -/
def basename (p : String) : String :=
  (p.splitOn "/").getLastD ""

/-- Lines 104-106 of `app.py`: build the Drive file metadata from the
local path's base name, filing under `folder_id` when that is truthy. -/
def buildMeta (filePath : String) (folderId : Option String) : FileMeta :=
  { name := basename filePath
    parents := if pyTruthy folderId then [folderId.getD ""] else [] }

/-- Lines 92-113 of `app.py`: the `try` body of `upload_to_google_drive`
— first obtains credentials by calling `get_google_drive_credentials()`
itself; returns `None` (not an exception) when that yields nothing;
otherwise performs the Drive upload, which may raise. -/
def uploadBody (filePath : String) (folderId : Option String) (env : Env) :
    Except Err (Option String) × List Ev :=
  match get_google_drive_credentials env with
  | (none, tr) => (.ok none, tr)
  | (some _, tr) =>
    match env.driveUploadOutcome with
    | none => (.error .uploadError, tr)
    | some fid => (.ok (some fid), tr ++ [Ev.driveUpload])

/-- Lines 88-116 of `app.py`: `upload_to_google_drive` — the body
wrapped by the top-level `except Exception: return None` handler. -/
def upload_to_google_drive (filePath : String) (folderId : Option String)
    (env : Env) : Option String × List Ev :=
  match uploadBody filePath folderId env with
  | (.ok r, tr) => (r, tr)
  | (.error _, tr) => (none, tr)

/-- One generation request sent to the generative service: the staged
audio reference paired with one instruction string. -/
structure GenReq where
  staged : String
  instruction : String
deriving DecidableEq, Repr

/-- The single instruction string of line 130 of `app.py`. -/
def NOTES_INSTRUCTION : String :=
  "You are a Teaching Assistant! Make comprehensive notes out of this audio clip for a College Student."

/-- Lines 122-132 of `app.py`: the `try` body of
`process_audio_with_gemini` — stage the audio with `genai.upload_file`
(may raise), then issue one `generate_content` call pairing the staged
file with the notes instruction (the call may raise or return text). -/
def processBody (filePath : String) (env : Env) :
    Except Err String × List GenReq :=
  match env.geminiUploadOutcome with
  | none => (.error .stageError, [])
  | some ref =>
    match env.generateOutcome with
    | none => (.error .genError, [⟨ref, NOTES_INSTRUCTION⟩])
    | some txt => (.ok txt, [⟨ref, NOTES_INSTRUCTION⟩])

/-- Lines 118-136 of `app.py`: `process_audio_with_gemini` — the body
wrapped by the top-level `except Exception: return None` handler. -/
def process_audio_with_gemini (filePath : String) (env : Env) :
    Option String × List GenReq :=
  match processBody filePath env with
  | (.ok t, tr) => (some t, tr)
  | (.error _, tr) => (none, tr)

/-- True when `token.json` exists and already holds valid credentials:
the run is the Valid → Valid no-op, no state transition happens. -/
def alreadyValid (env : Env) : Bool :=
  env.tokenFileExists &&
    (match env.tokenFileContent with
     | some c => c.valid
     | none => false)

/-- The environment after a run of `get_google_drive_credentials`: when
the run wrote `token.json` (a `saveWrite` event), the token file now
exists and parses to the returned credential; otherwise nothing on disk
changed. -/
def envAfter (env : Env) : Env :=
  match getCredsBody env with
  | (.ok c, tr) =>
    if Ev.saveWrite ∈ tr then
      { env with tokenFileExists := true, tokenFileContent := some c }
    else env
  | (.error _, _) => env

/-- One parsed question/answer pair derived from generative output. -/
structure QuizItem where
  question : String
  answer : String
deriving DecidableEq, Repr

/-- Split a character list at every occurrence of the separator; the
chunks keep their text verbatim and do not contain the separator. -/
def splitOnChar (sep : Char) : List Char → List (List Char)
  | [] => [[]]
  | c :: cs =>
    if c = sep then [] :: splitOnChar sep cs
    else
      match splitOnChar sep cs with
      | [] => [[c]]
      | l :: ls => (c :: l) :: ls

/-- A line is blank when it is empty after trimming surrounding
whitespace, i.e. when every character is whitespace. -/
def isBlankLine (cs : List Char) : Bool :=
  cs.dropWhile Char.isWhitespace == []

/-- Pair alternating lines as question/answer, dropping a trailing
unpaired line. -/
def pairUp : List String → List QuizItem
  | [] => []
  | [_] => []
  | q :: a :: rest => ⟨q, a⟩ :: pairUp rest

/-- Modelled from the spec: no QuizParser exists under `src/` (the
repository's `app.py` contains no quiz parsing); this is the spec's
§4.5 algorithm — split `rawText` into lines, drop lines empty after
trimming surrounding whitespace, pair line 2i with line 2i+1, discard a
trailing unpaired line, preserving line text verbatim.  The lines of
the raw text that are non-empty after the emptiness strip: -/
def nonBlankLines (rawText : String) : List String :=
  ((splitOnChar '\n' rawText.data).filter (fun cs => !(isBlankLine cs))).map
    (fun cs => String.mk cs)

/-- Modelled from the spec: the pairing pass of QuizParser.parse — pair
non-blank line 2i as question with non-blank line 2i+1 as answer,
discarding a trailing unpaired line. -/
def QuizParser.parse (rawText : String) : List QuizItem :=
  pairUp (nonBlankLines rawText)

/-- A grant the interactive consent flow can hand back. -/
def grantG : FreshGrant := ⟨"tok", some "rt"⟩

/-- The credential produced by a consent flow returning `grantG`. -/
def credFresh : Credential := ⟨some "tok", some "rt", false, SCOPES⟩

/-- A valid stored credential. -/
def credValid : Credential := ⟨some "atok", some "rt", false, SCOPES⟩

/-- An expired stored credential that carries a refresh token. -/
def credExpiredR : Credential := ⟨some "old", some "rt", true, SCOPES⟩

/-- An expired stored credential without a refresh token. -/
def credExpiredNoR : Credential := ⟨some "old", none, true, SCOPES⟩

/-- World: no token file, everything external succeeds. -/
def envFresh : Env :=
  ⟨false, none, true, some grantG, none, true, some "fid", some "gref", some "txt"⟩

/-- World: no token file and no client-secret configuration. -/
def envNoCfg : Env :=
  ⟨false, none, false, none, none, true, none, none, none⟩

/-- World: `token.json` exists but its content is unparsable. -/
def envBadTok : Env :=
  ⟨true, none, true, some grantG, none, true, some "fid", some "gref", some "txt"⟩

/-- World: `token.json` exists, unparsable, and nothing else works. -/
def envBadTok2 : Env :=
  ⟨true, none, false, none, none, false, none, none, none⟩

/-- World: `token.json` holds a valid credential. -/
def envValidTok : Env :=
  ⟨true, some credValid, true, some grantG, some "newtok", true, some "fid", some "gref", some "txt"⟩

/-- World: stored credential expired with refresh token, refresh works. -/
def envRefreshOk : Env :=
  ⟨true, some credExpiredR, true, some grantG, some "newtok", true, some "fid", some "gref", some "txt"⟩

/-- World: stored credential expired with refresh token, refresh raises,
consent flow works. -/
def envRefreshFail : Env :=
  ⟨true, some credExpiredR, true, some grantG, none, true, some "fid", some "gref", some "txt"⟩

/-- World: stored credential expired without a refresh token. -/
def envNoRT : Env :=
  ⟨true, some credExpiredNoR, true, some grantG, some "newtok", true, some "fid", some "gref", some "txt"⟩

/-- World: valid stored credential, but the Drive upload and the Gemini
calls all raise. -/
def envRemoteFail : Env :=
  ⟨true, some credValid, true, none, none, true, none, none, none⟩

/-- World: Gemini staging succeeds, nothing to do with Drive works. -/
def envProc : Env :=
  ⟨false, none, false, none, none, true, none, some "staged", some "txt"⟩

/-! ## Helper lemmas -/

theorem get_eq_ok {env : Env} {c : Credential} {tr : List Ev}
    (h : getCredsBody env = (.ok c, tr)) :
    get_google_drive_credentials env = (some c, tr) := by
  simp [get_google_drive_credentials, h]

theorem get_eq_error {env : Env} {e : Err} {tr : List Ev}
    (h : getCredsBody env = (.error e, tr)) :
    get_google_drive_credentials env = (none, tr) := by
  simp [get_google_drive_credentials, h]

theorem get_trace (env : Env) :
    (get_google_drive_credentials env).2 = (getCredsBody env).2 := by
  rcases hb : getCredsBody env with ⟨r, tr⟩
  cases r <;> simp [get_google_drive_credentials, hb]

theorem runFlow_ok_valid {env : Env} {c : Credential} {tr : List Ev}
    (h : runFlow env = (.ok c, tr)) : c.valid = true := by
  unfold runFlow at h
  by_cases hc : env.configOk
  · cases hf : env.flowOutcome with
    | none => simp [hc, hf] at h
    | some g =>
      simp [hc, hf] at h
      rcases h with ⟨h1, _⟩
      rw [← h1]
      simp [Credential.valid]
  · simp [hc] at h

theorem authStep_ok_valid {creds0 : Option Credential} {env : Env}
    {c : Credential} {tr : List Ev}
    (h : authStep creds0 env = (.ok c, tr)) : c.valid = true := by
  unfold authStep at h
  cases creds0 with
  | none => exact runFlow_ok_valid h
  | some c0 =>
    by_cases hb : c0.expired && pyTruthy c0.refreshToken
    · simp only [hb, if_true] at h
      cases hr : refreshStep c0 env with
      | ok c2 =>
        simp [hr] at h
        rcases h with ⟨h1, _⟩
        unfold refreshStep at hr
        cases hro : env.refreshOutcome with
        | none => simp [hro] at hr
        | some t =>
          simp [hro] at hr
          rw [← h1, ← hr]
          simp [Credential.valid]
      | error e =>
        simp [hr] at h
        rcases hf : runFlow env with ⟨rf, trf⟩
        rw [hf] at h
        cases rf with
        | ok cf =>
          simp at h
          rcases h with ⟨h1, _⟩
          rw [h1] at hf
          exact runFlow_ok_valid hf
        | error ef => simp at h
    · simp only [hb, if_false] at h
      exact runFlow_ok_valid h

theorem authPath_ok {creds0 : Option Credential} {env : Env}
    {c : Credential} {tr : List Ev}
    (h : authPath creds0 env = (.ok c, tr)) :
    ∃ tr0, authStep creds0 env = (.ok c, tr0) ∧ env.saveOk = true ∧
      tr = tr0 ++ [Ev.saveWrite] := by
  unfold authPath at h
  rcases hs : authStep creds0 env with ⟨rs, trs⟩
  rw [hs] at h
  cases rs with
  | error e => simp at h
  | ok c1 =>
    unfold saveStep at h
    by_cases hsv : env.saveOk
    · simp [hsv] at h
      obtain ⟨h1, h2⟩ := h
      subst h1
      exact ⟨trs, rfl, hsv, h2.symm⟩
    · simp [hsv] at h

theorem getCredsBody_ok_valid {env : Env} {c : Credential} {tr : List Ev}
    (h : getCredsBody env = (.ok c, tr)) : c.valid = true := by
  unfold getCredsBody loadStep at h
  by_cases hex : env.tokenFileExists
  · cases hct : env.tokenFileContent with
    | none => simp [hex, hct] at h
    | some c0 =>
      simp only [hex, hct, if_true] at h
      by_cases hv : c0.valid
      · simp [hv] at h
        rw [← h.1]
        exact hv
      · simp only [hv, if_false] at h
        obtain ⟨tr0, hs, _, _⟩ := authPath_ok h
        exact authStep_ok_valid hs
  · simp only [hex, if_false] at h
    obtain ⟨tr0, hs, _, _⟩ := authPath_ok h
    exact authStep_ok_valid hs

theorem pairUp_length : ∀ l : List String, (pairUp l).length = l.length / 2
  | [] => by simp [pairUp]
  | [_] => by simp [pairUp]
  | _ :: _ :: rest => by
    simp [pairUp, pairUp_length rest]
    omega

theorem pairUp_getD : ∀ (l : List String) (i : Nat), i < (pairUp l).length →
    (pairUp l).getD i ⟨"", ""⟩ =
      ⟨l.getD (2 * i) "", l.getD (2 * i + 1) ""⟩
  | [], i, h => by simp [pairUp] at h
  | [_], i, h => by simp [pairUp] at h
  | q :: a :: rest, 0, _ => by simp [pairUp]
  | q :: a :: rest, i + 1, h => by
    have h' : i < (pairUp rest).length := by
      simp [pairUp] at h
      omega
    have e1 : 2 * (i + 1) = 2 * i + 1 + 1 := by omega
    calc (pairUp (q :: a :: rest)).getD (i + 1) ⟨"", ""⟩
        = (pairUp rest).getD i ⟨"", ""⟩ := by
          simp [pairUp, List.getD_cons_succ]
      _ = ⟨rest.getD (2 * i) "", rest.getD (2 * i + 1) ""⟩ := pairUp_getD rest i h'
      _ = ⟨(q :: a :: rest).getD (2 * (i + 1)) "",
           (q :: a :: rest).getD (2 * (i + 1) + 1) ""⟩ := by
          rw [e1]
          simp [List.getD_cons_succ]

theorem valid_false_of_expired {c : Credential} (he : c.expired = true) :
    c.valid = false := by
  simp [Credential.valid, he]

theorem getCredsBody_stored (env : Env) (c : Credential)
    (hex : env.tokenFileExists = true) (hct : env.tokenFileContent = some c)
    (hv : c.valid = false) :
    getCredsBody env = authPath (some c) env := by
  unfold getCredsBody loadStep
  simp [hex, hct, hv]

theorem runFlow_no_save (env : Env) : Ev.saveWrite ∉ (runFlow env).2 := by
  unfold runFlow
  by_cases hc : env.configOk <;> cases hf : env.flowOutcome <;> simp [hc, hf]

theorem authStep_no_save (c0 : Option Credential) (env : Env) :
    Ev.saveWrite ∉ (authStep c0 env).2 := by
  unfold authStep
  cases c0 with
  | none => exact runFlow_no_save env
  | some c =>
    by_cases hb : (c.expired && pyTruthy c.refreshToken) = true
    · simp only [hb, if_true]
      cases hr : refreshStep c env with
      | ok c2 => simp
      | error e =>
        intro hmem
        simp at hmem
        exact runFlow_no_save env hmem
    · simp only [hb, if_false]
      exact runFlow_no_save env

theorem authPath_ok_save_count {c0 : Option Credential} {env : Env}
    {c : Credential} {tr : List Ev}
    (h : authPath c0 env = (.ok c, tr)) : tr.count Ev.saveWrite = 1 := by
  obtain ⟨tr0, hs, _, htr0⟩ := authPath_ok h
  have hns := authStep_no_save c0 env
  rw [hs] at hns
  simp at hns
  rw [htr0, List.count_append, List.count_eq_zero.mpr hns]
  simp

/-! ## Claim theorems -/

/-- Claim C1: every run of get_google_drive_credentials either returns
a valid (access token present, not expired) credential or explicitly
signals failure with none; it never returns an expired or malformed
credential.  When the client-secret configuration is missing while no
token is stored, the run fails fatally with no fallback: no consent
flow, no save, no credential. -/
theorem creds_valid_or_fail (env : Env) :
    (∀ c, (get_google_drive_credentials env).1 = some c → c.valid = true)
    ∧ (env.configOk = false → env.tokenFileExists = false →
        get_google_drive_credentials env = (none, [])) := by
  constructor
  · intro c hc
    rcases hb : getCredsBody env with ⟨r, tr⟩
    cases r with
    | ok c1 =>
      rw [get_eq_ok hb] at hc
      simp at hc
      rw [← hc]
      exact getCredsBody_ok_valid hb
    | error e =>
      rw [get_eq_error hb] at hc
      simp at hc
  · intro hcfg hex
    have hb : getCredsBody env = (.error .configError, []) := by
      unfold getCredsBody loadStep authPath authStep runFlow
      simp [hex, hcfg]
    exact get_eq_error hb

theorem creds_valid_or_fail_witness :
    credFresh.valid = true
    ∧ get_google_drive_credentials envNoCfg = (none, []) :=
  ⟨(creds_valid_or_fail envFresh).1 credFresh (by decide),
   (creds_valid_or_fail envNoCfg).2 (by decide) (by decide)⟩

/-- Claim C3: QuizParser.parse drops blank lines, pairs non-blank line
2i as question with non-blank line 2i+1 as answer in original order,
discards a trailing unpaired line, hence emits exactly floor(N/2) items
where N counts the non-blank lines; and parse of the empty string is
the empty sequence. -/
theorem quiz_parse_pairs (t : String) :
    (QuizParser.parse t).length = (nonBlankLines t).length / 2
    ∧ (∀ i, i < (QuizParser.parse t).length →
        (QuizParser.parse t).getD i ⟨"", ""⟩ =
          ⟨(nonBlankLines t).getD (2 * i) "",
           (nonBlankLines t).getD (2 * i + 1) ""⟩)
    ∧ QuizParser.parse "" = [] := by
  refine ⟨pairUp_length (nonBlankLines t), ?_, by decide⟩
  intro i hi
  exact pairUp_getD (nonBlankLines t) i hi

theorem quiz_parse_pairs_witness :
    (QuizParser.parse "Q1\nA1\nQ2").length = 1
    ∧ (QuizParser.parse "Q1\nA1\nQ2").getD 0 ⟨"", ""⟩ = ⟨"Q1", "A1"⟩ := by
  have h := quiz_parse_pairs "Q1\nA1\nQ2"
  constructor
  · exact h.1.trans (by decide)
  · exact (h.2.1 0 (by decide)).trans (by decide)

/-- Claim C2: for a stored expired credential carrying a (truthy)
refresh token, the run attempts the silent refresh first; when the
refresh raises, the refresh failure is never the surfaced error and
(provided the client-secret configuration loads) the interactive
consent flow runs as automatic fallback; when the refresh succeeds the
consent flow is never invoked and (when the save succeeds) the
refreshed credential is returned. -/
theorem expired_refresh_first (env : Env) (c : Credential)
    (hex : env.tokenFileExists = true) (hct : env.tokenFileContent = some c)
    (he : c.expired = true) (hr : pyTruthy c.refreshToken = true) :
    ((get_google_drive_credentials env).2.head? = some Ev.refreshAttempt)
    ∧ (env.refreshOutcome = none →
        (getCredsBody env).1 ≠ Except.error Err.refreshError
        ∧ (env.configOk = true →
            Ev.flowRun ∈ (get_google_drive_credentials env).2))
    ∧ (∀ t, env.refreshOutcome = some t →
        Ev.flowRun ∉ (get_google_drive_credentials env).2
        ∧ (env.saveOk = true →
            (get_google_drive_credentials env).1 =
              some { c with token := some t, expired := false })) := by
  have hbody := getCredsBody_stored env c hex hct (valid_false_of_expired he)
  refine ⟨?_, ?_, ?_⟩
  · rw [get_trace, hbody]
    unfold authPath authStep refreshStep runFlow saveStep
    cases hro : env.refreshOutcome <;>
      by_cases hcf : env.configOk <;>
        cases hfo : env.flowOutcome <;>
          by_cases hsv : env.saveOk <;>
            simp [he, hr, hro, hcf, hfo, hsv]
  · intro hro
    constructor
    · rw [hbody]
      unfold authPath authStep refreshStep runFlow saveStep
      by_cases hcf : env.configOk <;>
        cases hfo : env.flowOutcome <;>
          by_cases hsv : env.saveOk <;>
            simp [he, hr, hro, hcf, hfo, hsv]
    · intro hcf
      rw [get_trace, hbody]
      unfold authPath authStep refreshStep runFlow saveStep
      cases hfo : env.flowOutcome <;>
        by_cases hsv : env.saveOk <;>
          simp [he, hr, hro, hcf, hfo, hsv]
  · intro t hro
    constructor
    · rw [get_trace, hbody]
      unfold authPath authStep refreshStep saveStep
      by_cases hsv : env.saveOk <;> simp [he, hr, hro, hsv]
    · intro hsv
      have hb : getCredsBody env =
          (.ok { c with token := some t, expired := false },
           [Ev.refreshAttempt, Ev.saveWrite]) := by
        rw [hbody]
        unfold authPath authStep refreshStep saveStep
        simp [he, hr, hro, hsv]
      rw [get_eq_ok hb]

theorem expired_refresh_first_witness :
    ((get_google_drive_credentials envRefreshFail).2.head? =
        some Ev.refreshAttempt
     ∧ Ev.flowRun ∈ (get_google_drive_credentials envRefreshFail).2)
    ∧ (Ev.flowRun ∉ (get_google_drive_credentials envRefreshOk).2
       ∧ (get_google_drive_credentials envRefreshOk).1 =
           some { credExpiredR with token := some "newtok", expired := false }) := by
  have hf := expired_refresh_first envRefreshFail credExpiredR
    (by decide) (by decide) (by decide) (by decide)
  have ho := expired_refresh_first envRefreshOk credExpiredR
    (by decide) (by decide) (by decide) (by decide)
  exact ⟨⟨hf.1, (hf.2.1 rfl).2 rfl⟩,
         ⟨(ho.2.2 "newtok" rfl).1, (ho.2.2 "newtok" rfl).2 rfl⟩⟩

/-- Claim C4, amended: when the persisted token file exists but its
content is unparsable, the load raises internally and the top-level
handler converts this into the failure value none — the exception never
propagates to the caller — but no fresh interactive consent flow is
attempted: the run aborts without a credential. -/
theorem unparsable_token_fails_closed (env : Env)
    (hex : env.tokenFileExists = true) (hct : env.tokenFileContent = none) :
    get_google_drive_credentials env = (none, []) := by
  have hb : getCredsBody env = (.error .parseError, []) := by
    unfold getCredsBody loadStep
    simp [hex, hct]
  exact get_eq_error hb

/-- Claim C4, counterexample to the claim as stated: in a world where
the token file content is unparsable and everything else (consent flow,
save) works, the run returns none with an empty trace — the consent
flow is not triggered and no credential is produced. -/
theorem unparsable_token_cex :
    get_google_drive_credentials envBadTok = (none, [])
    ∧ Ev.flowRun ∉ (get_google_drive_credentials envBadTok).2 := by
  constructor <;> decide

theorem unparsable_token_fails_closed_witness :
    get_google_drive_credentials envBadTok2 = (none, []) :=
  unparsable_token_fails_closed envBadTok2 (by decide) (by decide)

/-- Claim C5: on every successful run that performed a state transition
(the stored state was not already a valid credential), the token file
is written exactly once before the credential is returned. -/
theorem transition_saves_once (env : Env) (c : Credential)
    (hres : (get_google_drive_credentials env).1 = some c)
    (htr : alreadyValid env = false) :
    (get_google_drive_credentials env).2.count Ev.saveWrite = 1 := by
  rcases hb : getCredsBody env with ⟨r, tr⟩
  cases r with
  | error e =>
    rw [get_eq_error hb] at hres
    simp at hres
  | ok c1 =>
    rw [get_trace, hb]
    unfold getCredsBody loadStep at hb
    by_cases hex : env.tokenFileExists
    · cases hct : env.tokenFileContent with
      | none => simp [hex, hct] at hb
      | some c0 =>
        have hv : c0.valid = false := by
          unfold alreadyValid at htr
          simp [hex, hct] at htr
          exact htr
        simp only [hex, hct, if_true, hv, if_false] at hb
        exact authPath_ok_save_count hb
    · simp only [hex, if_false] at hb
      exact authPath_ok_save_count hb

theorem transition_saves_once_witness :
    (get_google_drive_credentials envFresh).2.count Ev.saveWrite = 1 :=
  transition_saves_once envFresh credFresh (by decide) (by decide)

/-- Claim C6: when the stored credential is valid, the run returns that
same credential unchanged with an empty event trace (no refresh, no
consent flow, no save, no network call), the world is unchanged, and a
second run returns the identical result. -/
theorem valid_noop_idempotent (env : Env) (c0 : Credential)
    (hex : env.tokenFileExists = true) (hct : env.tokenFileContent = some c0)
    (hv : c0.valid = true) :
    get_google_drive_credentials env = (some c0, [])
    ∧ envAfter env = env
    ∧ get_google_drive_credentials (envAfter env) = (some c0, []) := by
  have hb : getCredsBody env = (.ok c0, []) := by
    unfold getCredsBody loadStep
    simp [hex, hct, hv]
  have h1 := get_eq_ok hb
  have h2 : envAfter env = env := by
    unfold envAfter
    rw [hb]
    simp
  exact ⟨h1, h2, by rw [h2]; exact h1⟩

theorem valid_noop_idempotent_witness :
    get_google_drive_credentials envValidTok = (some credValid, [])
    ∧ envAfter envValidTok = envValidTok
    ∧ get_google_drive_credentials (envAfter envValidTok) =
        (some credValid, []) :=
  valid_noop_idempotent envValidTok credValid (by decide) (by decide) (by decide)

/-- Claim C7: for a stored expired credential without a (truthy)
refresh token, the run never attempts a refresh and (provided the
client-secret configuration loads) goes straight to the interactive
consent flow. -/
theorem expired_no_refresh_token (env : Env) (c : Credential)
    (hex : env.tokenFileExists = true) (hct : env.tokenFileContent = some c)
    (he : c.expired = true) (hr : pyTruthy c.refreshToken = false) :
    Ev.refreshAttempt ∉ (get_google_drive_credentials env).2
    ∧ (env.configOk = true →
        Ev.flowRun ∈ (get_google_drive_credentials env).2) := by
  have hbody := getCredsBody_stored env c hex hct (valid_false_of_expired he)
  constructor
  · rw [get_trace, hbody]
    unfold authPath authStep runFlow saveStep
    by_cases hcf : env.configOk <;>
      cases hfo : env.flowOutcome <;>
        by_cases hsv : env.saveOk <;>
          simp [hr, hcf, hfo, hsv]
  · intro hcf
    rw [get_trace, hbody]
    unfold authPath authStep runFlow saveStep
    cases hfo : env.flowOutcome <;>
      by_cases hsv : env.saveOk <;>
        simp [hr, hcf, hfo, hsv]

theorem expired_no_refresh_token_witness :
    Ev.refreshAttempt ∉ (get_google_drive_credentials envNoRT).2
    ∧ Ev.flowRun ∈ (get_google_drive_credentials envNoRT).2 := by
  have h := expired_no_refresh_token envNoRT credExpiredNoR
    (by decide) (by decide) (by decide) (by decide)
  exact ⟨h.1, h.2 rfl⟩

/-- Claim C8, amended: upload_to_google_drive takes no credential from
its caller — it performs authorization itself by invoking
get_google_drive_credentials; when that yields no credential, the
upload returns none without attempting the Drive transfer, and in every
case its event trace is the authorization trace, possibly followed by
the one Drive upload event. -/
theorem upload_authorizes_itself (fp : String) (fid : Option String)
    (env : Env) :
    ((get_google_drive_credentials env).1 = none →
      upload_to_google_drive fp fid env =
        (none, (get_google_drive_credentials env).2))
    ∧ ((upload_to_google_drive fp fid env).2 =
          (get_google_drive_credentials env).2
       ∨ (upload_to_google_drive fp fid env).2 =
          (get_google_drive_credentials env).2 ++ [Ev.driveUpload]) := by
  rcases hg : get_google_drive_credentials env with ⟨r, tr⟩
  cases r with
  | none =>
    constructor
    · intro _
      simp [upload_to_google_drive, uploadBody, hg]
    · left
      simp [upload_to_google_drive, uploadBody, hg]
  | some c =>
    constructor
    · intro hn
      simp at hn
    · cases hdo : env.driveUploadOutcome with
      | none =>
        left
        simp [upload_to_google_drive, uploadBody, hg, hdo]
      | some fid2 =>
        right
        simp [upload_to_google_drive, uploadBody, hg, hdo]

/-- Claim C8, counterexample to the claim as stated: in a world with no
stored credential, the upload operation itself runs the interactive
consent flow (an authorization performed inside the upload, with no
credential supplied by the caller) and still succeeds. -/
theorem upload_performs_auth_cex :
    Ev.flowRun ∈ (upload_to_google_drive "a.mp3" none envFresh).2
    ∧ (upload_to_google_drive "a.mp3" none envFresh).1 = some "fid" := by
  constructor <;> decide

theorem upload_authorizes_itself_witness :
    upload_to_google_drive "a.mp3" none envNoCfg = (none, []) := by
  have h := (upload_authorizes_itself "a.mp3" none envNoCfg).1 (by decide)
  exact h.trans (by decide)

/-- Claim C9, amended: each processing run issues at most one
generation request; every issued request carries the notes instruction
and references the staged audio, and when staging succeeds exactly one
such request is sent — no quiz request is issued and no call batches
several instructions. -/
theorem process_single_notes_request (fp : String) (env : Env) :
    (process_audio_with_gemini fp env).2.length ≤ 1
    ∧ (∀ r ∈ (process_audio_with_gemini fp env).2,
        r.instruction = NOTES_INSTRUCTION
        ∧ env.geminiUploadOutcome = some r.staged)
    ∧ (∀ ref, env.geminiUploadOutcome = some ref →
        (process_audio_with_gemini fp env).2 = [⟨ref, NOTES_INSTRUCTION⟩]) := by
  cases hgu : env.geminiUploadOutcome <;>
    cases hgo : env.generateOutcome <;>
      refine ⟨?_, ?_, ?_⟩ <;>
        simp [process_audio_with_gemini, processBody, hgu, hgo]

/-- Claim C9, counterexample to the claim as stated: in a fully
functional world, the run issues exactly one generation request — the
notes instruction — and never a second (quiz) request. -/
theorem process_no_quiz_request_cex :
    (process_audio_with_gemini "a.mp3" envFresh).2 =
      [⟨"gref", NOTES_INSTRUCTION⟩]
    ∧ ¬ 2 ≤ (process_audio_with_gemini "a.mp3" envFresh).2.length := by
  constructor <;> decide

theorem process_single_notes_request_witness :
    (process_audio_with_gemini "a.mp3" envProc).2 =
      [⟨"staged", NOTES_INSTRUCTION⟩] :=
  (process_single_notes_request "a.mp3" envProc).2.2 "staged" (by decide)

/-- Claim C10: each of the three public operations wraps its body in a
catch-all handler: whenever the body raises (is not ok), the operation
returns none to its caller rather than propagating the exception. -/
theorem public_ops_catch_all (env : Env) (fp : String) (fid : Option String) :
    ((getCredsBody env).1.isOk = false →
      (get_google_drive_credentials env).1 = none)
    ∧ ((uploadBody fp fid env).1.isOk = false →
      (upload_to_google_drive fp fid env).1 = none)
    ∧ ((processBody fp env).1.isOk = false →
      (process_audio_with_gemini fp env).1 = none) := by
  refine ⟨?_, ?_, ?_⟩
  · rcases hb : getCredsBody env with ⟨r, tr⟩
    intro h
    cases r with
    | ok c => simp [Except.isOk, Except.toBool] at h
    | error e => simp [get_google_drive_credentials, hb]
  · rcases hu : uploadBody fp fid env with ⟨r, tr⟩
    intro h
    cases r with
    | ok v => simp [Except.isOk, Except.toBool] at h
    | error e => simp [upload_to_google_drive, hu]
  · rcases hp : processBody fp env with ⟨r, tr⟩
    intro h
    cases r with
    | ok v => simp [Except.isOk, Except.toBool] at h
    | error e => simp [process_audio_with_gemini, hp]

theorem public_ops_catch_all_witness :
    (get_google_drive_credentials envNoCfg).1 = none
    ∧ (upload_to_google_drive "a.mp3" none envRemoteFail).1 = none
    ∧ (process_audio_with_gemini "a.mp3" envRemoteFail).1 = none :=
  ⟨(public_ops_catch_all envNoCfg "a.mp3" none).1 (by decide),
   (public_ops_catch_all envRemoteFail "a.mp3" none).2.1 (by decide),
   (public_ops_catch_all envRemoteFail "a.mp3" none).2.2 (by decide)⟩

end AITA
